import Mathlib

/-!
# Verification of the PLIVE player-card generator

Shallow embedding of `generate_player_card.py` (the card layout & annotation
engine).  Python dictionaries are modelled as association lists with
last-insert-wins lookup, Python strings as Lean `String`, Python `float`
values as exact rationals `ℚ`, and the fallible external collaborators
(remote id-lookup service, HTTP image fetches, font metrics, the local brand
logo file) as explicit oracle parameters.  Machine-level floating point is
replaced by exact rational arithmetic; this is noted where it matters.
-/

namespace PliveCards

/-! ## Python dictionary model (association list, last insert shadows) -/

/-- Lookup in a Python-dict model: the most recent insert is found first. -/
def dictGet (l : List (String × String)) (k : String) : Option String :=
  (l.find? (fun p => p.1 == k)).map (fun p => p.2)

/-- Python `d.get(k, default)`. -/
def dictGetD (l : List (String × String)) (k : String) (dflt : String) : String :=
  (dictGet l k).getD dflt

/-- Python `d[k] = v`: the new binding shadows any earlier one. -/
def dictInsert (l : List (String × String)) (k v : String) : List (String × String) :=
  (k, v) :: l

/-! ## Python string operations

`str.strip()`, `str.upper()`, `str.lower()` and whitespace `str.split()` are
modelled over the character list of the string (ASCII case mapping, as in
`Char.toUpper`/`Char.toLower`). -/

/-- Python `str.strip()`: drop leading and trailing whitespace. -/
def pyStrip (s : String) : String :=
  String.mk (((s.toList.dropWhile Char.isWhitespace).reverse.dropWhile Char.isWhitespace).reverse)

/-- Python `str.upper()` (ASCII model). -/
def pyUpper (s : String) : String :=
  String.mk (s.toList.map Char.toUpper)

/-- Python `str.lower()` (ASCII model). -/
def pyLower (s : String) : String :=
  String.mk (s.toList.map Char.toLower)

/-- Helper for whitespace tokenisation: accumulate the current token. -/
def tokenizeAux : List Char → List Char → List (List Char)
  | [], acc => if acc = [] then [] else [acc.reverse]
  | c :: rest, acc =>
    if c.isWhitespace then
      if acc = [] then tokenizeAux rest []
      else acc.reverse :: tokenizeAux rest []
    else tokenizeAux rest (c :: acc)

/-- Python `str.split()` with no argument: split on whitespace runs,
discarding empty tokens. -/
def pySplit (s : String) : List String :=
  (tokenizeAux s.toList []).map String.mk

/-- Python `a // b` on integers: floor division. -/
def pyDiv (a b : ℤ) : ℤ := Int.fdiv a b

/-- Python `int(q)` on a real value: truncation toward zero. -/
def pyTrunc (q : ℚ) : ℤ := if q < 0 then ⌈q⌉ else ⌊q⌋

/-- Numeric value of a list of decimal digit characters. -/
def natOfDigits (cs : List Char) : ℕ :=
  cs.foldl (fun n c => 10 * n + (c.toNat - 48)) 0

/-- Model of Python `float(s)` on plain decimal numerals: optional sign,
digits, optional single decimal point (`"5"`, `"5."`, `".5"`, `"-0.08"`).
Scientific notation, `inf`/`nan` and digit underscores are treated as
non-numeric; the result is an exact rational. -/
def parseFloat (s : String) : Option ℚ :=
  let t := (pyStrip s).toList
  let sgn : ℚ := if t.head? = some '-' then -1 else 1
  let u : List Char := if t.head? = some '-' ∨ t.head? = some '+' then t.tail else t
  let intPart := u.takeWhile (fun c => c ≠ '.')
  match u.dropWhile (fun c => c ≠ '.') with
  | [] =>
    if u ≠ [] ∧ u.all Char.isDigit then some (sgn * natOfDigits u) else none
  | _ :: frac =>
    if frac.any (fun c => c = '.') then none
    else if intPart = [] ∧ frac = [] then none
    else if intPart.all Char.isDigit ∧ frac.all Char.isDigit then
      some (sgn * ((natOfDigits intPart : ℚ) + (natOfDigits frac : ℚ) / (10 ^ frac.length)))
    else none

/-! ## Colors and classification (`color_for_stat`, `color_for_grade`) -/

abbrev Color := ℕ × ℕ × ℕ

def COLOR_GRAY : Color := (80, 80, 80)
def COLOR_BLUE : Color := (70, 160, 245)
def COLOR_RED : Color := (228, 55, 50)
def COLOR_WHITE : Color := (255, 255, 255)
def COLOR_BLACK : Color := (0, 0, 0)

/-- One entry of `STAT_COLOR_RULES`: the gray band `[lo, hi]` and the
`reverse` flag. -/
structure ColorRule where
  lo : ℚ
  hi : ℚ
  reverse : Bool
deriving DecidableEq, Repr

/-- The `STAT_COLOR_RULES` table of the source. -/
def STAT_COLOR_RULES : List (String × ColorRule) :=
  [("BB%", ⟨0.066, 0.10, false⟩),
   ("K%", ⟨0.184, 0.241, true⟩),
   ("AVG", ⟨0.236, 0.273, false⟩),
   ("OBP", ⟨0.311, 0.353, false⟩),
   ("SLG", ⟨0.382, 0.455, false⟩),
   ("wRC+", ⟨105, 118, false⟩),
   ("HR", ⟨15, 23, false⟩),
   ("SB", ⟨9, 15, false⟩)]

/-- Lookup `STAT_COLOR_RULES.get(label)` of the source. -/
def statRuleFor (label : String) : Option ColorRule :=
  (STAT_COLOR_RULES.find? (fun p => p.1 == label)).map (fun p => p.2)

/-- Function `color_for_stat(label, value)` of the source: neutral gray when the
label has no rule or the value does not parse; otherwise blue/red on the
band, swapped when `reverse` is set. -/
def color_for_stat (label : String) (value : String) : Color :=
  match statRuleFor label with
  | none => COLOR_GRAY
  | some rules =>
    match parseFloat value with
    | none => COLOR_GRAY
    | some v =>
      if rules.reverse then
        if v < rules.lo then COLOR_RED
        else if v > rules.hi then COLOR_BLUE
        else COLOR_GRAY
      else
        if v < rules.lo then COLOR_BLUE
        else if v > rules.hi then COLOR_RED
        else COLOR_GRAY

/-- Band `SCOUT_GRADE_RULES` of the source. -/
def SCOUT_GRADE_LO : ℚ := 45
def SCOUT_GRADE_HI : ℚ := 55

/-- Function `color_for_grade(value)` of the source. -/
def color_for_grade (value : String) : Color :=
  match parseFloat value with
  | none => COLOR_GRAY
  | some v =>
    if v < SCOUT_GRADE_LO then COLOR_BLUE
    else if v > SCOUT_GRADE_HI then COLOR_RED
    else COLOR_GRAY

def SCOUT_GRADE_LABELS : List String := ["OFP", "Hit", "Power", "Field", "Arm", "Run"]

/-! ## Stat formatting (the inline branches of `draw_player_card`) -/

/-- Round-half-even to an integer (the tie rule of Python's `format`),
computed on exact rationals. -/
def roundHalfEven (x : ℚ) : ℤ :=
  let f := ⌊x⌋
  let r := x - f
  if r < 1 / 2 then f
  else if 1 / 2 < r then f + 1
  else if f % 2 = 0 then f else f + 1

/-- Render `x` with exactly one decimal digit, as the one-decimal float
format of Python does (with rounding taken on the exact rational rather
than on a binary double). -/
def fmt1 (x : ℚ) : String :=
  let n := roundHalfEven (x * 10)
  let sgn := if n < 0 then "-" else ""
  let m := n.natAbs
  sgn ++ toString (m / 10) ++ "." ++ toString (m % 10)

/-- Python `s.split('.')` over the character list. -/
def splitOnDotAux : List Char → List (List Char)
  | [] => [[]]
  | c :: r =>
    if c = '.' then [] :: splitOnDotAux r
    else
      match splitOnDotAux r with
      | [] => [[c]]
      | g :: gs => (c :: g) :: gs

/-- Python `s.split('.')[-1]`: the part after the last period (the whole
string when there is none). -/
def lastDotPart (s : String) : String :=
  String.mk ((splitOnDotAux s.toList).getLastD [])

/-- The per-label stat formatting inlined in `draw_player_card`
(lines 467–478 of the source), extracted as a function:
`BB%`/`K%` are multiplied by 100 and shown with one decimal and `%`
(unparseable input passes through); `AVG`/`OBP`/`SLG` are shown as a
period followed by the text after the last period; everything else is
shown unchanged. -/
def format_stat (label : String) (stat_val : String) : String :=
  if label = "BB%" ∨ label = "K%" then
    match parseFloat stat_val with
    | some v => fmt1 (v * 100) ++ "%"
    | none => stat_val
  else if label = "AVG" ∨ label = "OBP" ∨ label = "SLG" then
    "." ++ lastDotPart stat_val
  else stat_val

/-! ## Identity resolution (`get_mlbam_id`) -/

/-- One row of the result of the `playerid_lookup` remote service. -/
structure LookupRow where
  team : String
  key_mlbam : ℤ
deriving DecidableEq, Repr

instance : Inhabited LookupRow := ⟨⟨"", 0⟩⟩

/-- The remote `playerid_lookup(last, first)` collaborator: either raises
(`Except.error`) or returns a list of rows. -/
abbrev RemoteLookup := String → String → Except String (List LookupRow)

/-- Result of one `get_mlbam_id` call: the id (if any), the cache after the
call, and whether the remote service was queried. -/
structure ResolveResult where
  id : Option String
  cache : Option (List (String × String))
  remoteCalled : Bool
deriving DecidableEq, Repr

/-- Step 1 of `get_mlbam_id`: the Chadwick registry lookup on
`"firstToken lastToken"` of the stripped, lowercased name.  A missing or
empty registry value is a miss (Python truthiness of `if mlbam_id:`). -/
def chadwickStep (chadwick_ids : Option (List (String × String))) (player_name : String) :
    Option String :=
  match chadwick_ids with
  | none => none
  | some ch =>
    let parts := pySplit (pyLower (pyStrip player_name))
    match parts with
    | p0 :: _ :: _ =>
      let full_name := p0 ++ " " ++ parts.getLastD ""
      match dictGet ch full_name with
      | some id => if id ≠ "" then some id else none
      | none => none
    | _ => none

/-- Step 2 of `get_mlbam_id`: `if cache and key in cache` — a `None` or
empty cache is falsy. -/
def cacheStep (cache : Option (List (String × String))) (key : String) : Option String :=
  match cache with
  | some c => if c ≠ [] then dictGet c key else none
  | none => none

/-- The row selection of step 3: prefer a team-matching row when a truthy
team hint is given (`if team:` of the source), else the first row. -/
def remoteChoose (lookup : List LookupRow) (team : String) : ℤ :=
  if team ≠ "" then
    let lookup_team := lookup.filter (fun r => pyUpper r.team == pyUpper team)
    match lookup_team with
    | r :: _ => r.key_mlbam
    | [] => (lookup.headD default).key_mlbam
  else (lookup.headD default).key_mlbam

/-- The body of the `try:` block of step 3 (the remote fallback); an
`Except.error` models an exception escaping to the `except` handler. -/
def remoteStep (remote : RemoteLookup) (last first : String) (team : String)
    (cache : Option (List (String × String))) (key : String) :
    Except String (Option String × Option (List (String × String))) := do
  let lookup ← remote last first
  if lookup = [] then
    pure (none, cache)
  else
    let mlbam_id : ℤ := remoteChoose lookup team
    let cache' := match cache with
      | some c => some (dictInsert c key (toString mlbam_id))
      | none => none
    pure (some (toString mlbam_id), cache')

/-- Function `get_mlbam_id(player_name, team, cache, chadwick_ids)` of the source,
instrumented with whether the remote service was consulted.  `team = ""`
models Python's falsy `None`/empty team hint. -/
def get_mlbam_id (remote : RemoteLookup) (player_name : String) (team : String)
    (cache : Option (List (String × String)))
    (chadwick_ids : Option (List (String × String))) : ResolveResult :=
  match chadwickStep chadwick_ids player_name with
  | some mlbam_id =>
    let cache' := match cache with
      | some c => some (dictInsert c (pyUpper player_name) mlbam_id)
      | none => none
    ⟨some mlbam_id, cache', false⟩
  | none =>
    let key := pyUpper player_name
    match cacheStep cache key with
    | some v => ⟨some v, cache, false⟩
    | none =>
      let parts := pySplit (pyStrip player_name)
      match parts with
      | p0 :: _ :: _ =>
        match remoteStep remote (parts.getLastD "") p0 team cache key with
        | .ok (res, cache') => ⟨res, cache', true⟩
        | .error _ => ⟨none, cache, true⟩
      | _ => ⟨none, cache, false⟩

/-- Function `get_headshot_url(mlbam_id)` of the source. -/
def get_headshot_url (mlbam_id : String) : String :=
  "https://img.mlbstatic.com/mlb-photos/image/upload/v1/people/" ++ mlbam_id ++
    "/headshot/67/current.png"

/-! ## `resize_and_center` -/

/-- Function `resize_and_center(img, target_box)` of the source: the new size and the
paste offsets.  Image dimensions are naturals, box coordinates integers,
the scale factor an exact rational. -/
def resize_and_center (imgW imgH : ℕ) (box : ℤ × ℤ × ℤ × ℤ) : (ℕ × ℕ) × ℤ × ℤ :=
  let box_w : ℤ := box.2.2.1 - box.1
  let box_h : ℤ := box.2.2.2 - box.2.1
  let scale : ℚ := min ((box_w : ℚ) / (imgW : ℚ)) ((box_h : ℚ) / (imgH : ℚ))
  let new_w := (pyTrunc ((imgW : ℚ) * scale)).toNat
  let new_h := (pyTrunc ((imgH : ℚ) * scale)).toNat
  let offset_x := box.1 + pyDiv (box_w - new_w) 2
  let offset_y := box.2.1 + pyDiv (box_h - new_h) 2
  ((new_w, new_h), offset_x, offset_y)

/-! ## Internal PLIVE+ ranks (`get_pliveplus_ranks`) -/

/-- Name normalisation used by all the table loaders: `strip().upper()`. -/
def normName (s : String) : String := pyUpper (pyStrip s)

def get_pliveplus_ranks_aux : List String → ℕ → List (String × String) → List (String × String)
  | [], _, acc => acc
  | r :: rest, idx, acc =>
    get_pliveplus_ranks_aux rest (idx + 1) (dictInsert acc (normName r) (toString (idx + 1)))

/-- Function `get_pliveplus_ranks(csv_file)` of the source, over the list of `Name`
fields of the roster rows: each row writes `str(idx + 1)` into the dict. -/
def get_pliveplus_ranks (rows : List String) : List (String × String) :=
  get_pliveplus_ranks_aux rows 0 []

/-- Index of the last row whose normalised name equals `k` (a specification
helper used to characterise `get_pliveplus_ranks`). -/
def lastMatch : List String → String → Option ℕ
  | [], _ => none
  | r :: rest, k =>
    match lastMatch rest k with
    | some j => some (j + 1)
    | none => if normName r = k then some 0 else none

/-! ## Fonts and drawing primitives -/

def FONT_PATH_BOLD : String := "cooper-hewitt/CooperHewitt-Bold.otf"
def FONT_PATH_MEDIUM : String := "cooper-hewitt/CooperHewitt-Medium.otf"
def FOOTER_ITALIC_PATH : String := "cooper-hewitt/CooperHewitt-BoldItalic.otf"

/-- A loaded font: which file and at which size (font files themselves are
an external collaborator). -/
structure FontSpec where
  path : String
  size : ℤ
deriving DecidableEq, Repr

/-- Function `load_font(size, bold, medium, italic)` of the source. -/
def load_font (size : ℤ) (bold medium italic : Bool) : FontSpec :=
  if italic then ⟨FOOTER_ITALIC_PATH, size⟩
  else if bold then ⟨FONT_PATH_BOLD, size⟩
  else if medium then ⟨FONT_PATH_MEDIUM, size⟩
  else ⟨FONT_PATH_BOLD, size⟩

/-- One drawing operation applied to the canvas: text at a position,
a filled/outlined rectangle, or a pasted bitmap of a given size. -/
inductive Op where
  | text : ℤ × ℤ → String → FontSpec → Color → Op
  | rect : ℤ × ℤ × ℤ × ℤ → Color → Color → ℕ → Op
  | paste : ℤ × ℤ → ℤ → ℤ → Op
deriving DecidableEq, Repr

/-- The font-metric oracle: `font.getbbox(text)` / `draw.textbbox((0,0),
text, font)`, an external property of the font files. -/
abbrev Measure := FontSpec → String → ℤ × ℤ × ℤ × ℤ

/-- Function `draw_box` of the source. -/
def draw_box (box : ℤ × ℤ × ℤ × ℤ) (fill outline : Color) (width : ℕ) : Op :=
  .rect box fill outline width

/-- Function `draw_centered` of the source: center the measured glyph box of the
string inside the target box. -/
def draw_centered (m : Measure) (text : String) (box : ℤ × ℤ × ℤ × ℤ)
    (font : FontSpec) (fill : Color) : Op :=
  let bbox := m font text
  let w := bbox.2.2.1 - bbox.1
  let h := bbox.2.2.2 - bbox.2.1
  let x := box.1 + pyDiv (box.2.2.1 - box.1 - w) 2
  let y := box.2.1 + pyDiv (box.2.2.2 - box.2.1 - h) 2
  .text (x, y) text font fill

/-- Function `draw_rank_box_vertical` of the source: a bordered box with a title at
the top and a number centered below it. -/
def draw_rank_box_vertical (m : Measure) (box : ℤ × ℤ × ℤ × ℤ) (title number : String)
    (title_font number_font : FontSpec) (fill outline : Color) (width : ℕ) : List Op :=
  let x0 := box.1
  let y0 := box.2.1
  let x1 := box.2.2.1
  let y1 := box.2.2.2
  let box_w := x1 - x0
  let box_h := y1 - y0
  let tb := m title_font title
  let title_h := tb.2.2.2 - tb.2.1
  let title_y := y0 + 10
  let title_x := x0 + pyDiv (box_w - (tb.2.2.1 - tb.1)) 2
  let nb := m number_font number
  let num_h := nb.2.2.2 - nb.2.1
  let num_w := nb.2.2.1 - nb.1
  let num_x := x0 + pyDiv (box_w - num_w) 2
  let num_y := title_y + title_h + 10 + pyDiv (box_h - title_h - 20 - num_h) 2
  [draw_box box fill outline width,
   .text (title_x, title_y) title title_font COLOR_BLACK,
   .text (num_x, num_y) number number_font COLOR_BLACK]

/-! ## Layout constants -/

def CARD_WIDTH : ℤ := 900
def CARD_HEIGHT : ℤ := 920
def MARGIN : ℤ := 56
def SIDE_MARGIN : ℤ := MARGIN
def TOP_MARGIN : ℤ := 32
def ROW_GAP : ℤ := 12
def BOX_GAP : ℤ := 32
def NAME_FONT_SIZE : ℤ := 56
def INFO_BOX_HEIGHT : ℤ := 56
def INFO_BOX_FONT_SIZE : ℤ := 36
def INFO_BOX_GAP : ℤ := 16
def RANK_LABEL_FONT_SIZE : ℤ := 28
def RANK_NUMBER_FONT_SIZE : ℤ := 54
def PHOTO_BOX_BORDER : ℕ := 3
def BOTTOM_BOX_WIDTH : ℤ := 392
def BOTTOM_BOX_HEIGHT : ℤ := 490
def BOTTOM_BOX_BORDER : ℕ := 7
def FOOTER_TEXT_SIZE : ℤ := 48

/-! ## Grade-cell helpers of the grades loop -/

def removeFirstDotAux : List Char → List Char
  | [] => []
  | c :: r => if c = '.' then r else c :: removeFirstDotAux r

/-- Python `s.replace('.', '', 1)`. -/
def removeFirstDot (s : String) : String := String.mk (removeFirstDotAux s.toList)

/-- Python `s.isdigit()` (ASCII digits, nonempty). -/
def pyIsdigit (s : String) : Bool := s.toList ≠ [] && s.toList.all Char.isDigit

/-- Lookup in the grades table (name → grade dict). -/
def dictGetGrades (l : List (String × List (String × String))) (k : String) :
    Option (List (String × String)) :=
  (l.find? (fun p => p.1 == k)).map (fun p => p.2)

/-! ## The card assembly driver (`draw_player_card`) -/

/-- The finished canvas: its fixed size, the drawing operations applied in
order, and the identity cache after the render. -/
structure CardResult where
  width : ℤ
  height : ℤ
  ops : List Op
  cache : Option (List (String × String))
deriving DecidableEq, Repr

/-- Function `draw_player_card` of the source, producing the operation list applied
to the fresh `CARD_WIDTH × CARD_HEIGHT` canvas.  External collaborators are
oracles: `measure` for font metrics, `remote` for the identity fallback
service, `fetchHeadshot` (url → bitmap dimensions, `none` = failed fetch),
`fetchLogo` (url and requested square size → success?), `brandLogo`
(whether the local brand-mark file loads).  `none` models the `KeyError`
raised when the player record has no `Name` field. -/
def draw_player_card (measure : Measure) (remote : RemoteLookup)
    (fetchHeadshot : String → Option (ℕ × ℕ)) (fetchLogo : String → ℤ → Bool)
    (brandLogo : Bool) (player : List (String × String))
    (top100_map pliveplus_ranks os_positions : List (String × String))
    (os_grades : List (String × List (String × String)))
    (mlb_logo_urls : List (String × String))
    (mlbam_cache : Option (List (String × String)))
    (chadwick_ids : Option (List (String × String))) : Option CardResult :=
  match dictGet player "Name" with
  | none => none
  | some pname =>
    let name_font := load_font NAME_FONT_SIZE true false false
    let info_font := load_font INFO_BOX_FONT_SIZE true false false
    let bottom_section_title_font_big := load_font 32 true false false
    let stat_label_font := load_font 28 true false false
    let stat_value_font := load_font 50 true false false
    let grade_font := load_font 48 true false false
    let grade_label_font := load_font 29 true false false
    let footer_font := load_font FOOTER_TEXT_SIZE false false true
    let rank_label_font := load_font RANK_LABEL_FONT_SIZE true false false
    let rank_number_font := load_font RANK_NUMBER_FONT_SIZE true false false
    let name_text := pyUpper pname
    let nb := measure name_font name_text
    let name_text_w := nb.2.2.1 - nb.1
    let name_x := pyDiv (CARD_WIDTH - name_text_w) 2
    let name_y := TOP_MARGIN
    let opsName : List Op := [.text (name_x, name_y) name_text name_font COLOR_WHITE]
    let grid_left := SIDE_MARGIN
    let grid_top := name_y + NAME_FONT_SIZE + ROW_GAP + 6
    let grid_cell_w := pyDiv (BOTTOM_BOX_WIDTH - INFO_BOX_GAP) 2
    let grid_cell_h := INFO_BOX_HEIGHT
    let grid_v_gap : ℤ := 10
    let player_name_upper := pyUpper (pyStrip pname)
    let top100_rank := dictGetD top100_map player_name_upper "NR"
    let pliveplus_rank := dictGetD pliveplus_ranks player_name_upper "NR"
    let player_pos := dictGetD os_positions player_name_upper ""
    let info_top_y := grid_top
    let info_box_left := (grid_left, info_top_y, grid_left + grid_cell_w, info_top_y + grid_cell_h)
    let info_box_right := (grid_left + grid_cell_w + INFO_BOX_GAP, info_top_y,
      grid_left + 2 * grid_cell_w + INFO_BOX_GAP, info_top_y + grid_cell_h)
    let opsInfo : List Op :=
      [draw_box info_box_left COLOR_WHITE COLOR_BLACK 4,
       draw_centered measure player_pos info_box_left info_font COLOR_BLACK,
       draw_box info_box_right COLOR_WHITE COLOR_BLACK 4,
       draw_centered measure (dictGetD player "Level" "LEVEL") info_box_right info_font COLOR_BLACK]
    let double_box_h := 2 * grid_cell_h + grid_v_gap
    let double_box_y := info_top_y + grid_cell_h + grid_v_gap
    let rank_box_left := (grid_left, double_box_y, grid_left + grid_cell_w, double_box_y + double_box_h)
    let rank_box_right := (grid_left + grid_cell_w + INFO_BOX_GAP, double_box_y,
      grid_left + 2 * grid_cell_w + INFO_BOX_GAP, double_box_y + double_box_h)
    let opsRanks : List Op :=
      draw_rank_box_vertical measure rank_box_left "TOP 100" top100_rank
        rank_label_font rank_number_font COLOR_WHITE COLOR_BLACK 4 ++
      draw_rank_box_vertical measure rank_box_right "PLIVE+ RANK" pliveplus_rank
        rank_label_font rank_number_font COLOR_WHITE COLOR_BLACK 4
    let info_section_bottom := double_box_y + double_box_h
    let logo_headshot_box_left := grid_left + 2 * grid_cell_w + 2 * INFO_BOX_GAP + BOX_GAP
    let logo_headshot_box_right := CARD_WIDTH - SIDE_MARGIN
    let logo_headshot_box_top := info_top_y
    let logo_headshot_box_bottom := info_section_bottom
    let logo_box_w := pyDiv (logo_headshot_box_right - logo_headshot_box_left) 2
    let logo_box := (logo_headshot_box_left, logo_headshot_box_top,
      logo_headshot_box_left + logo_box_w, logo_headshot_box_bottom)
    let headshot_box := (logo_headshot_box_left + logo_box_w, logo_headshot_box_top,
      logo_headshot_box_right, logo_headshot_box_bottom)
    let team_abbr := pyUpper (pyStrip (dictGetD player "Team" ""))
    let opsLogo : List Op :=
      match dictGet mlb_logo_urls team_abbr with
      | some logo_url =>
        let logo_size := pyTrunc
          (((min (logo_box.2.2.1 - logo_box.1) (logo_box.2.2.2 - logo_box.2.1) : ℤ) : ℚ) * 0.82)
        if fetchLogo logo_url logo_size then
          let lx := logo_box.1 + pyDiv (logo_box.2.2.1 - logo_box.1 - logo_size) 2
          let ly := logo_box.2.1 + pyDiv (logo_box.2.2.2 - logo_box.2.1 - logo_size) 2
          [.paste (lx, ly) logo_size logo_size]
        else []
      | none => []
    let r := get_mlbam_id remote pname team_abbr mlbam_cache chadwick_ids
    let opsHead : List Op :=
      match r.id with
      | some mlbam_id =>
        match fetchHeadshot (get_headshot_url mlbam_id) with
        | some wh =>
          let rc := resize_and_center wh.1 wh.2 headshot_box
          [.paste (rc.2.1, rc.2.2) (rc.1.1 : ℤ) (rc.1.2 : ℤ)]
        | none => [draw_box headshot_box COLOR_GRAY COLOR_BLACK PHOTO_BOX_BORDER]
      | none => [draw_box headshot_box COLOR_GRAY COLOR_BLACK PHOTO_BOX_BORDER]
    let bottom_y := info_section_bottom + BOX_GAP
    let proj_box_x := SIDE_MARGIN
    let grades_box_x := proj_box_x + BOTTOM_BOX_WIDTH + BOX_GAP
    let proj_box := (proj_box_x, bottom_y, proj_box_x + BOTTOM_BOX_WIDTH, bottom_y + BOTTOM_BOX_HEIGHT)
    let title_h : ℤ := 36
    let section_title_pad : ℤ := 18
    let opsProj : List Op :=
      [draw_box proj_box COLOR_WHITE COLOR_BLACK BOTTOM_BOX_BORDER,
       draw_centered measure "PLIVE+ PEAK"
         (proj_box_x, bottom_y + section_title_pad,
          proj_box_x + BOTTOM_BOX_WIDTH, bottom_y + section_title_pad + title_h)
         bottom_section_title_font_big COLOR_BLACK,
       draw_centered measure "PROJECTIONS"
         (proj_box_x, bottom_y + section_title_pad + title_h - 6,
          proj_box_x + BOTTOM_BOX_WIDTH, bottom_y + section_title_pad + 2 * title_h - 6)
         bottom_section_title_font_big COLOR_BLACK]
    let stat_labels : List (String × String) :=
      [("HR", "HR"), ("SB", "SB"), ("K%", "K."), ("BB%", "BB."),
       ("OBP", "OBP"), ("AVG", "AVG"), ("SLG", "SLG"), ("wRC+", "wRC.")]
    let stat_start_y := bottom_y + section_title_pad + 2 * title_h - 6 + 6
    let stat_row_height := pyDiv (BOTTOM_BOX_HEIGHT - (section_title_pad + 2 * title_h))
      (stat_labels.length : ℤ)
    let stat_col_x := proj_box_x + 36
    let stat_val_x := proj_box_x + BOTTOM_BOX_WIDTH - 172
    let opsStats : List Op := (stat_labels.enum).flatMap (fun p =>
      let y0 := stat_start_y + (p.1 : ℤ) * stat_row_height
      let stat_val := dictGetD player p.2.2 ""
      [.text (stat_col_x, y0) p.2.1 stat_label_font COLOR_BLACK,
       .text (stat_val_x, y0) (format_stat p.2.1 stat_val) stat_value_font
         (color_for_stat p.2.1 (dictGetD player p.2.2 ""))])
    let grades_box := (grades_box_x, bottom_y, grades_box_x + BOTTOM_BOX_WIDTH,
      bottom_y + BOTTOM_BOX_HEIGHT)
    let opsGradesHdr : List Op :=
      [draw_box grades_box COLOR_WHITE COLOR_BLACK BOTTOM_BOX_BORDER,
       draw_centered measure "PROSPECTS LIVE"
         (grades_box_x, bottom_y + section_title_pad,
          grades_box_x + BOTTOM_BOX_WIDTH, bottom_y + section_title_pad + title_h)
         bottom_section_title_font_big COLOR_BLACK,
       draw_centered measure "SCOUT GRADES"
         (grades_box_x, bottom_y + section_title_pad + title_h - 6,
          grades_box_x + BOTTOM_BOX_WIDTH, bottom_y + section_title_pad + 2 * title_h - 6)
         bottom_section_title_font_big COLOR_BLACK]
    let player_grades :=
      match dictGetGrades os_grades player_name_upper with
      | some g => if g ≠ [] then g else []
      | none => []
    let grade_start_y := bottom_y + section_title_pad + 2 * title_h - 6 + 6
    let grade_row_height := pyDiv (BOTTOM_BOX_HEIGHT - (section_title_pad + 2 * title_h))
      (SCOUT_GRADE_LABELS.length : ℤ)
    let grade_label_x := grades_box_x + 36
    let grade_val_x := grades_box_x + BOTTOM_BOX_WIDTH - 172
    let opsGrades : List Op := (SCOUT_GRADE_LABELS.enum).flatMap (fun p =>
      let y0 := grade_start_y + (p.1 : ℤ) * grade_row_height
      let value := if player_grades ≠ [] then dictGetD player_grades p.2 "" else ""
      let color := if value ≠ "" ∧ pyIsdigit (removeFirstDot value) = true
        then color_for_grade value else COLOR_GRAY
      [.text (grade_label_x, y0) (pyUpper p.2 ++ " -") grade_label_font COLOR_BLACK,
       .text (grade_val_x, y0) value grade_font color])
    let fb := measure footer_font "prospects live"
    let footer_text_w := fb.2.2.1 - fb.1
    let footer_x := pyDiv (CARD_WIDTH - footer_text_w) 2
    let footer_y := CARD_HEIGHT - FOOTER_TEXT_SIZE - 16
    let opsFooter : List Op := [.text (footer_x, footer_y) "prospects live" footer_font COLOR_WHITE]
    let opsBrand : List Op :=
      if brandLogo then
        let logo_size : ℤ := 92
        [.paste (CARD_WIDTH - SIDE_MARGIN - logo_size + 4, CARD_HEIGHT - logo_size - 8)
          logo_size logo_size]
      else []
    some ⟨CARD_WIDTH, CARD_HEIGHT,
      opsName ++ opsInfo ++ opsRanks ++ opsLogo ++ opsHead ++ opsProj ++ opsStats ++
        opsGradesHdr ++ opsGrades ++ opsFooter ++ opsBrand,
      r.cache⟩

/-- Does a drawing operation put ink (a rectangle or a pasted bitmap)
strictly inside the team-logo destination region `(496, 106)–(670, 294)`?
Text operations are not bitmaps or placeholder boxes and are ignored. -/
def opInLogoArea : Op → Bool
  | .rect (x0, y0, x1, y1) _ _ _ => decide (x0 < 670 ∧ 496 < x1 ∧ y0 < 294 ∧ 106 < y1)
  | .paste (px, py) w h => decide (px < 670 ∧ 496 < px + w ∧ py < 294 ∧ 106 < py + h)
  | .text _ _ _ _ => false

/-! ## Claim C1: classification against the color band -/

/-- C1: for every metric label and raw value, `color_for_stat` returns
neutral (gray) when the label has no `ColorRule` or the raw value does not
parse as a number; otherwise, with the band `[lo, hi]` inclusive of
"within", a non-reversed metric classifies values strictly below `lo` as
cold (blue), values inside `[lo, hi]` as neutral (gray), and values
strictly above `hi` as hot (red); a metric with `reverse = true` inverts
exactly that mapping. -/
theorem c1_classify_band (label value : String) :
    (statRuleFor label = none → color_for_stat label value = COLOR_GRAY) ∧
    (parseFloat value = none → color_for_stat label value = COLOR_GRAY) ∧
    (∀ r v, statRuleFor label = some r → parseFloat value = some v → r.lo ≤ r.hi →
      ((r.reverse = false →
         (v < r.lo → color_for_stat label value = COLOR_BLUE) ∧
         (r.lo ≤ v → v ≤ r.hi → color_for_stat label value = COLOR_GRAY) ∧
         (r.hi < v → color_for_stat label value = COLOR_RED)) ∧
       (r.reverse = true →
         (v < r.lo → color_for_stat label value = COLOR_RED) ∧
         (r.lo ≤ v → v ≤ r.hi → color_for_stat label value = COLOR_GRAY) ∧
         (r.hi < v → color_for_stat label value = COLOR_BLUE)))) := by
  refine ⟨?_, ?_, ?_⟩
  · intro h; simp [color_for_stat, h]
  · intro h
    cases hr : statRuleFor label <;> simp [color_for_stat, hr, h]
  · intro r v hr hv hlohi
    constructor
    · intro hrev
      refine ⟨?_, ?_, ?_⟩
      · intro h1
        simp [color_for_stat, hr, hv, hrev, h1]
      · intro h1 h2
        simp only [color_for_stat, hr, hv, hrev, Bool.false_eq_true, if_false]
        rw [if_neg (by linarith), if_neg (by linarith)]
      · intro h1
        simp only [color_for_stat, hr, hv, hrev, Bool.false_eq_true, if_false]
        rw [if_neg (by linarith), if_pos (by linarith)]
    · intro hrev
      refine ⟨?_, ?_, ?_⟩
      · intro h1
        simp [color_for_stat, hr, hv, hrev, h1]
      · intro h1 h2
        simp only [color_for_stat, hr, hv, hrev, if_true]
        rw [if_neg (by linarith), if_neg (by linarith)]
      · intro h1
        simp only [color_for_stat, hr, hv, hrev, if_true]
        rw [if_neg (by linarith), if_pos (by linarith)]

/-- Evaluation fact for the witnesses: `"0.10"` parses to 1/10. -/
theorem parseFloat_010 : parseFloat "0.10" = some (1 / 10) := by
  have ht : (pyStrip "0.10").toList = ['0', '.', '1', '0'] := by decide
  unfold parseFloat
  rw [ht]
  simp +decide [natOfDigits]
  norm_num

/-- Evaluation fact for the witnesses: `"0.08"` parses to 8/100. -/
theorem parseFloat_008 : parseFloat "0.08" = some (8 / 100) := by
  have ht : (pyStrip "0.08").toList = ['0', '.', '0', '8'] := by decide
  unfold parseFloat
  rw [ht]
  simp +decide [natOfDigits]
  norm_num

/-- Evaluation fact: one-decimal rendering of the exact value 8 is `"8.0"`. -/
theorem fmt1_eight : fmt1 8 = "8.0" := by
  unfold fmt1 roundHalfEven
  have h1 : ⌊(8 : ℚ) * 10⌋ = 80 := by norm_num
  rw [h1]
  norm_num
  decide

/-- Witness for C1 at the spec's own example: `K%` has a reversed band
`[0.184, 0.241]`, so the raw value `"0.10"` (strictly below the band)
classifies hot (red). -/
theorem c1_witness :
    statRuleFor "K%" = some ⟨0.184, 0.241, true⟩ ∧
    parseFloat "0.10" = some (1 / 10) ∧
    color_for_stat "K%" "0.10" = COLOR_RED := by
  have h1 : statRuleFor "K%" = some ⟨0.184, 0.241, true⟩ := rfl
  have h2 : parseFloat "0.10" = some (1 / 10) := parseFloat_010
  refine ⟨h1, h2, ?_⟩
  exact (((c1_classify_band "K%" "0.10").2.2 _ _ h1 h2 (by norm_num)).2 rfl).1 (by norm_num)

/-! ## Claim C2: formatting by label class -/

/-- C2 counterexample: the claim says malformed (non-numeric) input passes
through unchanged for every label class, but for the `AVG`/`OBP`/`SLG`
class the code renders `"."` followed by the text after the last period,
so the non-numeric `"abc"` becomes `".abc"`, not `"abc"`. -/
theorem c2_cex :
    parseFloat "abc" = none ∧
    format_stat "AVG" "abc" = ".abc" ∧ format_stat "AVG" "abc" ≠ "abc" := by
  refine ⟨by decide, by decide, by decide⟩

/-- C2 (amended): `K%`/`BB%` multiply a parseable value by 100 and render
one decimal with a trailing `%` (`"0.08"` gives `"8.0%"`), and pass
non-numeric input through unchanged; `AVG`/`OBP`/`SLG` always render a
literal period followed by the text after the last period (so `"0.287"`
gives `".287"`, and malformed input is also period-prefixed rather than
passed through); every other label renders unchanged.  No input crashes. -/
theorem c2_format_rules :
    format_stat "BB%" "0.08" = "8.0%" ∧
    format_stat "AVG" "0.287" = ".287" ∧
    format_stat "HR" "23" = "23" ∧
    (∀ s v, parseFloat s = some v →
      format_stat "BB%" s = fmt1 (v * 100) ++ "%" ∧
      format_stat "K%" s = fmt1 (v * 100) ++ "%") ∧
    (∀ s, parseFloat s = none → format_stat "BB%" s = s ∧ format_stat "K%" s = s) ∧
    (∀ s, format_stat "AVG" s = "." ++ lastDotPart s ∧
      format_stat "OBP" s = "." ++ lastDotPart s ∧
      format_stat "SLG" s = "." ++ lastDotPart s) ∧
    (∀ label s, label ∉ (["BB%", "K%", "AVG", "OBP", "SLG"] : List String) →
      format_stat label s = s) := by
  refine ⟨?_, by decide, by decide, ?_, ?_, ?_, ?_⟩
  · have h : (8 / 100 : ℚ) * 100 = 8 := by norm_num
    simp only [format_stat, parseFloat_008]
    norm_num [h, fmt1_eight]
    decide
  · intro s v hv
    constructor <;> simp [format_stat, hv]
  · intro s hv
    constructor <;> simp [format_stat, hv]
  · intro s
    refine ⟨?_, ?_, ?_⟩ <;> simp [format_stat]
  · intro label s h
    simp only [List.mem_cons, List.not_mem_nil, or_false, not_or] at h
    obtain ⟨h1, h2, h3, h4, h5⟩ := h
    simp [format_stat, h1, h2, h3, h4, h5]

/-- Witness for C2 (amended) at concrete inputs: the non-numeric `"xx"`
passes through `K%` unchanged, and the non-special label `wRC+` renders
unchanged. -/
theorem c2_witness :
    parseFloat "xx" = none ∧ format_stat "K%" "xx" = "xx" ∧
    format_stat "wRC+" "105" = "105" := by
  refine ⟨by decide, ?_, ?_⟩
  · exact (c2_format_rules.2.2.2.2.1 "xx" (by decide)).2
  · exact c2_format_rules.2.2.2.2.2.2 "wRC+" "105" (by decide)

/-! ## Claim C8: `resize_and_center` -/

/-- For a nonnegative divisor, Python floor division agrees with `Int`
euclidean division. -/
theorem pyDiv_eq_ediv (a : ℤ) : pyDiv a 2 = a / 2 :=
  Int.fdiv_eq_ediv a (by norm_num)

/-- Python `int()` truncation is the floor on nonnegative values. -/
theorem pyTrunc_nonneg (q : ℚ) (h : 0 ≤ q) : pyTrunc q = ⌊q⌋ := by
  unfold pyTrunc
  rw [if_neg (not_lt.mpr h)]

/-- C8: `resize_and_center` scales by the single uniform factor
`min(boxW / imgW, boxH / imgH)` (both output dimensions are the floor of
the source dimension times that one factor, which is the precise sense of
aspect-ratio preservation up to rounding), the result never exceeds the
destination rectangle in either axis, and the leftover margin splits evenly
(within one pixel) on each side in both axes. -/
theorem c8_resize_and_center (imgW imgH : ℕ) (x0 y0 x1 y1 : ℤ) (nw nh : ℕ) (ox oy : ℤ)
    (hW : 0 < imgW) (hH : 0 < imgH) (hx : x0 ≤ x1) (hy : y0 ≤ y1)
    (hres : resize_and_center imgW imgH (x0, y0, x1, y1) = ((nw, nh), ox, oy)) :
    ∃ s : ℚ, s = min (((x1 - x0 : ℤ) : ℚ) / (imgW : ℚ)) (((y1 - y0 : ℤ) : ℚ) / (imgH : ℚ)) ∧
      (nw : ℤ) = ⌊(imgW : ℚ) * s⌋ ∧ (nh : ℤ) = ⌊(imgH : ℚ) * s⌋ ∧
      (nw : ℤ) ≤ x1 - x0 ∧ (nh : ℤ) ≤ y1 - y0 ∧
      0 ≤ ox - x0 ∧ 0 ≤ x1 - (ox + (nw : ℤ)) ∧
      |(x1 - (ox + (nw : ℤ))) - (ox - x0)| ≤ 1 ∧
      0 ≤ oy - y0 ∧ 0 ≤ y1 - (oy + (nh : ℤ)) ∧
      |(y1 - (oy + (nh : ℤ))) - (oy - y0)| ≤ 1 := by
  have hWq : (0 : ℚ) < (imgW : ℚ) := by exact_mod_cast hW
  have hHq : (0 : ℚ) < (imgH : ℚ) := by exact_mod_cast hH
  set s : ℚ := min (((x1 - x0 : ℤ) : ℚ) / (imgW : ℚ)) (((y1 - y0 : ℤ) : ℚ) / (imgH : ℚ))
    with hs
  have hs0 : 0 ≤ s := by
    apply le_min
    · apply div_nonneg _ hWq.le
      exact_mod_cast sub_nonneg.mpr hx
    · apply div_nonneg _ hHq.le
      exact_mod_cast sub_nonneg.mpr hy
  have hWs : 0 ≤ (imgW : ℚ) * s := mul_nonneg hWq.le hs0
  have hHs : 0 ≤ (imgH : ℚ) * s := mul_nonneg hHq.le hs0
  have hfw : 0 ≤ ⌊(imgW : ℚ) * s⌋ := Int.floor_nonneg.mpr hWs
  have hfh : 0 ≤ ⌊(imgH : ℚ) * s⌋ := Int.floor_nonneg.mpr hHs
  have hres2 : ((⌊(imgW : ℚ) * s⌋.toNat, ⌊(imgH : ℚ) * s⌋.toNat),
        x0 + pyDiv ((x1 - x0) - (⌊(imgW : ℚ) * s⌋.toNat : ℤ)) 2,
        y0 + pyDiv ((y1 - y0) - (⌊(imgH : ℚ) * s⌋.toNat : ℤ)) 2) =
      ((nw, nh), ox, oy) := by
    rw [← hres]
    unfold resize_and_center
    dsimp only
    rw [← hs]
    rw [pyTrunc_nonneg _ hWs, pyTrunc_nonneg _ hHs]
  simp only [Prod.mk.injEq] at hres2
  obtain ⟨⟨hnw, hnh⟩, hox, hoy⟩ := hres2
  have hcw : ((⌊(imgW : ℚ) * s⌋.toNat : ℕ) : ℤ) = ⌊(imgW : ℚ) * s⌋ := Int.toNat_of_nonneg hfw
  have hch : ((⌊(imgH : ℚ) * s⌋.toNat : ℕ) : ℤ) = ⌊(imgH : ℚ) * s⌋ := Int.toNat_of_nonneg hfh
  have hbw : ⌊(imgW : ℚ) * s⌋ ≤ x1 - x0 := by
    have h1 : (imgW : ℚ) * s ≤ ((x1 - x0 : ℤ) : ℚ) := by
      calc (imgW : ℚ) * s ≤ (imgW : ℚ) * (((x1 - x0 : ℤ) : ℚ) / (imgW : ℚ)) := by
            apply mul_le_mul_of_nonneg_left (min_le_left _ _) hWq.le
        _ = ((x1 - x0 : ℤ) : ℚ) := by field_simp
    calc ⌊(imgW : ℚ) * s⌋ ≤ ⌊((x1 - x0 : ℤ) : ℚ)⌋ := Int.floor_le_floor h1
      _ = x1 - x0 := Int.floor_intCast _
  have hbh : ⌊(imgH : ℚ) * s⌋ ≤ y1 - y0 := by
    have h1 : (imgH : ℚ) * s ≤ ((y1 - y0 : ℤ) : ℚ) := by
      calc (imgH : ℚ) * s ≤ (imgH : ℚ) * (((y1 - y0 : ℤ) : ℚ) / (imgH : ℚ)) := by
            apply mul_le_mul_of_nonneg_left (min_le_right _ _) hHq.le
        _ = ((y1 - y0 : ℤ) : ℚ) := by field_simp
    calc ⌊(imgH : ℚ) * s⌋ ≤ ⌊((y1 - y0 : ℤ) : ℚ)⌋ := Int.floor_le_floor h1
      _ = y1 - y0 := Int.floor_intCast _
  subst hnw hnh hox hoy
  rw [hcw, hch]
  refine ⟨s, hs, rfl, rfl, hbw, hbh, ?_, ?_, ?_, ?_, ?_, ?_⟩ <;>
    simp only [pyDiv_eq_ediv, hcw, hch] <;>
      first
        | omega
        | (rw [abs_le]; omega)

/-- Witness for C8 at a concrete 100×50 bitmap in a 30×40 box: the scale
is 0.3, giving a 30×15 result placed at vertical margins 12 and 13. -/
theorem c8_witness :
    resize_and_center 100 50 (0, 0, 30, 40) = ((30, 15), 0, 12) ∧
    ∃ s : ℚ, s = min (((30 - 0 : ℤ) : ℚ) / (100 : ℚ)) (((40 - 0 : ℤ) : ℚ) / (50 : ℚ)) ∧
      ((30 : ℕ) : ℤ) = ⌊(100 : ℚ) * s⌋ ∧ ((15 : ℕ) : ℤ) = ⌊(50 : ℚ) * s⌋ ∧
      ((30 : ℕ) : ℤ) ≤ 30 - 0 ∧ ((15 : ℕ) : ℤ) ≤ 40 - 0 ∧
      0 ≤ (0 : ℤ) - 0 ∧ 0 ≤ 30 - ((0 : ℤ) + ((30 : ℕ) : ℤ)) ∧
      |(30 - ((0 : ℤ) + ((30 : ℕ) : ℤ))) - ((0 : ℤ) - 0)| ≤ 1 ∧
      0 ≤ (12 : ℤ) - 0 ∧ 0 ≤ 40 - ((12 : ℤ) + ((15 : ℕ) : ℤ)) ∧
      |(40 - ((12 : ℤ) + ((15 : ℕ) : ℤ))) - ((12 : ℤ) - 0)| ≤ 1 := by
  have h : resize_and_center 100 50 (0, 0, 30, 40) = ((30, 15), 0, 12) := by
    have h1 : pyTrunc ((100 : ℚ) * min (((30 : ℤ) : ℚ) / 100 ) (((40 : ℤ) : ℚ) / 50)) = 30 := by
      rw [pyTrunc_nonneg]
      · norm_num
      · norm_num
    have h2 : pyTrunc ((50 : ℚ) * min (((30 : ℤ) : ℚ) / 100) (((40 : ℤ) : ℚ) / 50)) = 15 := by
      rw [pyTrunc_nonneg]
      · norm_num
      · norm_num
    unfold resize_and_center
    norm_num [h1, h2]
    decide
  exact ⟨h, c8_resize_and_center 100 50 0 0 30 40 30 15 0 12 (by norm_num) (by norm_num)
    (by norm_num) (by norm_num) h⟩

/-! ## Claim C9: the internal PLIVE+ rank table -/

/-- C9 counterexample: with the same name in rows 1 and 2, the final table
maps the name to rank `"2"` (the later row), not `"1"` — the claim's
"earlier row wins" is false. -/
theorem c9_cex :
    dictGet (get_pliveplus_ranks ["Ann Doe", "Ann Doe"]) (normName "Ann Doe") = some "2" ∧
    (some "2" : Option String) ≠ some "1" := by
  exact ⟨by decide, by decide⟩

/-- The accumulator invariant of `get_pliveplus_ranks_aux`: a name maps to
`idx + j + 1` where `j` is the last matching row in the remaining rows,
and otherwise to its binding in the accumulator. -/
theorem get_pliveplus_ranks_aux_spec (rows : List String) (idx : ℕ)
    (acc : List (String × String)) (k : String) :
    dictGet (get_pliveplus_ranks_aux rows idx acc) k =
      (match lastMatch rows k with
       | some j => some (toString (idx + j + 1))
       | none => dictGet acc k) := by
  induction rows generalizing idx acc with
  | nil => simp [get_pliveplus_ranks_aux, lastMatch]
  | cons r rest ih =>
    show dictGet (get_pliveplus_ranks_aux rest (idx + 1) (dictInsert acc (normName r)
      (toString (idx + 1)))) k = _
    rw [ih]
    cases h : lastMatch rest k with
    | some j =>
      show some (toString ((idx + 1) + j + 1)) = _
      have h2 : lastMatch (r :: rest) k = some (j + 1) := by
        show (match lastMatch rest k with
          | some j => some (j + 1)
          | none => if normName r = k then some 0 else none) = _
        rw [h]
      rw [h2]
      have h3 : (idx + 1) + j + 1 = idx + (j + 1) + 1 := by omega
      rw [h3]
    | none =>
      have h2 : lastMatch (r :: rest) k =
          (if normName r = k then some 0 else none) := by
        show (match lastMatch rest k with
          | some j => some (j + 1)
          | none => if normName r = k then some 0 else none) = _
        rw [h]
      rw [h2]
      by_cases hk : normName r = k
      · rw [if_pos hk]
        show dictGet ((normName r, toString (idx + 1)) :: acc) k = _
        simp [dictGet, List.find?_cons, hk]
      · rw [if_neg hk]
        show dictGet ((normName r, toString (idx + 1)) :: acc) k = _
        have : (normName r == k) = false := by
          simp [hk]
        simp [dictGet, List.find?_cons, this]

/-- C9 (amended): the internal PLIVE+ rank table maps each
uppercase-normalised player name to the 1-based row index of its LAST
occurrence in the ranking-ordered roster table — when the same name
appears in more than one row, the later row's rank wins (the dict
assignment overwrites). -/
theorem c9_ranks_last_occurrence (rows : List String) (k : String) :
    dictGet (get_pliveplus_ranks rows) k =
      (lastMatch rows k).map (fun j => toString (j + 1)) := by
  unfold get_pliveplus_ranks
  rw [get_pliveplus_ranks_aux_spec]
  cases h : lastMatch rows k with
  | some j => simp
  | none => simp [dictGet]

/-! ## Claims C3, C4, C5, C10: the identity resolver -/

/-- ASCII lowercasing never turns a character into (or out of) whitespace. -/
theorem isWhitespace_toLower (c : Char) : (Char.toLower c).isWhitespace = c.isWhitespace := by
  unfold Char.toLower
  dsimp only
  split
  next h =>
    obtain ⟨h1, h2⟩ := h
    have hs : c ≠ ' ' := fun he => by subst he; exact absurd h1 (by decide)
    have ht : c ≠ '\t' := fun he => by subst he; exact absurd h1 (by decide)
    have hr : c ≠ '\r' := fun he => by subst he; exact absurd h1 (by decide)
    have hn : c ≠ '\n' := fun he => by subst he; exact absurd h1 (by decide)
    have hws : c.isWhitespace = false := by
      simp [Char.isWhitespace, hs, ht, hr, hn]
    rw [hws]
    generalize hg : c.toNat = n at h1 h2
    interval_cases n <;> decide
  next h => rfl

/-- Tokenisation commutes with a character map that preserves whitespace. -/
theorem tokenizeAux_map (f : Char → Char) (hf : ∀ c, (f c).isWhitespace = c.isWhitespace) :
    ∀ (cs acc : List Char),
      tokenizeAux (cs.map f) (acc.map f) = (tokenizeAux cs acc).map (List.map f)
  | [], acc => by
    simp only [List.map_nil, tokenizeAux]
    by_cases h : acc = []
    · subst h; simp
    · rw [if_neg (by simpa using h), if_neg h]
      simp
  | c :: rest, acc => by
    simp only [List.map_cons, tokenizeAux, hf c]
    by_cases hw : c.isWhitespace
    · rw [if_pos hw, if_pos hw]
      by_cases h : acc = []
      · subst h
        simpa using tokenizeAux_map f hf rest []
      · rw [if_neg (by simpa using h), if_neg h]
        have := tokenizeAux_map f hf rest []
        simp only [List.map_nil] at this
        rw [this]
        simp
    · rw [if_neg hw, if_neg hw]
      simpa using tokenizeAux_map f hf rest (c :: acc)

/-- Lowercasing a string first commutes with whitespace splitting. -/
theorem pySplit_pyLower (s : String) : pySplit (pyLower s) = (pySplit s).map pyLower := by
  unfold pySplit pyLower
  have ht : (String.mk (s.toList.map Char.toLower)).toList = s.toList.map Char.toLower := rfl
  rw [ht]
  have h := tokenizeAux_map Char.toLower isWhitespace_toLower s.toList []
  simp only [List.map_nil] at h
  rw [h]
  simp [List.map_map]

/-- C10 (implicit): for a player name with at most one whitespace-delimited
token after stripping (the empty string included), `get_mlbam_id` neither
consults the Chadwick registry nor performs a remote lookup: it returns the
cached id under the uppercased (unstripped) name when present, `None`
otherwise, and leaves the cache unchanged. -/
theorem c10_single_token (remote : RemoteLookup) (name team : String)
    (cache chadwick : Option (List (String × String)))
    (h : (pySplit (pyStrip name)).length ≤ 1) :
    get_mlbam_id remote name team cache chadwick =
      ⟨cacheStep cache (pyUpper name), cache, false⟩ := by
  have hch : chadwickStep chadwick name = none := by
    unfold chadwickStep
    cases chadwick with
    | none => rfl
    | some ch =>
      have hl : (pySplit (pyLower (pyStrip name))).length ≤ 1 := by
        rw [pySplit_pyLower]
        simpa using h
      dsimp only
      rcases hp : pySplit (pyLower (pyStrip name)) with _ | ⟨a, _ | ⟨b, r⟩⟩
      · rfl
      · rfl
      · rw [hp] at hl
        simp at hl
  unfold get_mlbam_id
  rw [hch]
  dsimp only
  cases hcs : cacheStep cache (pyUpper name) with
  | some v => rfl
  | none =>
    dsimp only
    rcases hp : pySplit (pyStrip name) with _ | ⟨p0, _ | ⟨p1, r⟩⟩
    · rfl
    · rfl
    · rw [hp] at h
      simp at h

/-- Witness for C10: the single-token name `"Bo"` resolves from the cache
alone — the Chadwick registry (which even holds a conflicting entry) and
the remote service are never consulted. -/
theorem c10_witness :
    get_mlbam_id (fun _ _ => Except.error "down") "Bo" "" (some [("BO", "99")])
      (some [("bo", "1")]) = ⟨some "99", some [("BO", "99")], false⟩ := by
  have h := c10_single_token (fun _ _ => Except.error "down") "Bo" ""
    (some [("BO", "99")]) (some [("bo", "1")]) (by decide)
  rw [h]
  rfl

/-- Helper: a cache hit (with the registry missing) returns the cached id
and leaves the cache unchanged. -/
theorem gmi_cache_hit (remote : RemoteLookup) (name team : String)
    (cache chadwick : Option (List (String × String))) (v : String)
    (hch : chadwickStep chadwick name = none)
    (hc : cacheStep cache (pyUpper name) = some v) :
    get_mlbam_id remote name team cache chadwick = ⟨some v, cache, false⟩ := by
  unfold get_mlbam_id
  rw [hch]
  dsimp only
  rw [hc]

/-- C3: the resolver never raises for a not-found outcome (the embedding is
total: the one fallible step, the remote lookup, is wrapped by the
`except` handler); on a remote-service error or an empty remote result it
returns absent (`none`) and writes nothing to the cache. -/
theorem c3_resolver_not_found (remote : RemoteLookup) (name team : String)
    (cache chadwick : Option (List (String × String)))
    (hch : chadwickStep chadwick name = none)
    (hc : cacheStep cache (pyUpper name) = none)
    (hr : ∀ l f, remote l f = Except.ok [] ∨ ∃ e, remote l f = Except.error e) :
    (get_mlbam_id remote name team cache chadwick).id = none ∧
    (get_mlbam_id remote name team cache chadwick).cache = cache := by
  have key : ∃ b, get_mlbam_id remote name team cache chadwick = ⟨none, cache, b⟩ := by
    unfold get_mlbam_id
    rw [hch]
    dsimp only
    rw [hc]
    dsimp only
    rcases hp : pySplit (pyStrip name) with _ | ⟨p0, _ | ⟨p1, r⟩⟩
    · exact ⟨false, rfl⟩
    · exact ⟨false, rfl⟩
    · rcases hr ((p0 :: p1 :: r).getLastD "") p0 with hok | ⟨e, herr⟩
      · refine ⟨true, ?_⟩
        have hstep : remoteStep remote ((p0 :: p1 :: r).getLastD "") p0 team cache
            (pyUpper name) = Except.ok (none, cache) := by
          unfold remoteStep
          rw [hok]
          rfl
        dsimp only
        rw [hstep]
      · refine ⟨true, ?_⟩
        have hstep : remoteStep remote ((p0 :: p1 :: r).getLastD "") p0 team cache
            (pyUpper name) = Except.error e := by
          unfold remoteStep
          rw [herr]
          rfl
        dsimp only
        rw [hstep]
  obtain ⟨b, hb⟩ := key
  rw [hb]
  exact ⟨rfl, rfl⟩

/-- Witness for C3: with an always-failing remote service, an unknown
two-token name resolves to absent and the cache is untouched. -/
theorem c3_witness :
    (get_mlbam_id (fun _ _ => Except.error "down") "John Doe" ""
      (some [("X", "1")]) (some [])).id = none ∧
    (get_mlbam_id (fun _ _ => Except.error "down") "John Doe" ""
      (some [("X", "1")]) (some [])).cache = some [("X", "1")] := by
  exact c3_resolver_not_found (fun _ _ => Except.error "down") "John Doe" ""
    (some [("X", "1")]) (some []) (by decide) (by decide)
    (fun l f => Or.inr ⟨"down", rfl⟩)

/-- C4 counterexample: with fixed (empty) registry and cache tables and a
deterministic remote service that fails, both sequential resolutions of
`"John Doe"` query the remote service — the second call is NOT
short-circuited by the registry or the cache, contradicting the claim that
the second call performs no remote lookup. -/
theorem c4_cex :
    (get_mlbam_id (fun _ _ => Except.error "down") "John Doe" ""
      ((get_mlbam_id (fun _ _ => Except.error "down") "John Doe" "" (some []) (some [])).cache)
      (some [])).remoteCalled = true := by
  rfl

/-- Helper: a Chadwick registry hit returns the registry id and rewrites
the cache entry for the uppercased name. -/
theorem gmi_chadwick_hit (remote : RemoteLookup) (name team : String)
    (c : List (String × String)) (chadwick : Option (List (String × String))) (mid : String)
    (hch : chadwickStep chadwick name = some mid) :
    get_mlbam_id remote name team (some c) chadwick =
      ⟨some mid, some (dictInsert c (pyUpper name) mid), false⟩ := by
  unfold get_mlbam_id
  rw [hch]

/-- C4 (amended): with fixed tables and a deterministic remote service,
resolving the same name twice in sequence returns the same result both
times; and whenever the first call found an id, the second call performs
no remote lookup (the registry or the now-populated cache short-circuits
it).  When the first call found nothing, the second call repeats the
remote lookup. -/
theorem c4_idempotent (remote : RemoteLookup) (name team : String)
    (c : List (String × String)) (chadwick : Option (List (String × String))) :
    (get_mlbam_id remote name team
        ((get_mlbam_id remote name team (some c) chadwick).cache) chadwick).id =
      (get_mlbam_id remote name team (some c) chadwick).id ∧
    (∀ i, (get_mlbam_id remote name team (some c) chadwick).id = some i →
      (get_mlbam_id remote name team
        ((get_mlbam_id remote name team (some c) chadwick).cache) chadwick).remoteCalled
        = false) := by
  cases hch : chadwickStep chadwick name with
  | some mlbam_id =>
    have h1 := gmi_chadwick_hit remote name team c chadwick mlbam_id hch
    rw [h1]
    dsimp only
    have h2 := gmi_chadwick_hit remote name team (dictInsert c (pyUpper name) mlbam_id)
      chadwick mlbam_id hch
    rw [h2]
    exact ⟨rfl, fun i _ => rfl⟩
  | none =>
    cases hcs : cacheStep (some c) (pyUpper name) with
    | some v =>
      have h1 := gmi_cache_hit remote name team (some c) chadwick v hch hcs
      rw [h1]
      dsimp only
      rw [h1]
      exact ⟨rfl, fun i _ => rfl⟩
    | none =>
      rcases hp : pySplit (pyStrip name) with _ | ⟨p0, _ | ⟨p1, r⟩⟩
      · have h1 : get_mlbam_id remote name team (some c) chadwick = ⟨none, some c, false⟩ := by
          unfold get_mlbam_id
          rw [hch]
          dsimp only
          rw [hcs]
          dsimp only
          rw [hp]
        rw [h1]
        dsimp only
        rw [h1]
        exact ⟨rfl, fun i hi => by simp at hi⟩
      · have h1 : get_mlbam_id remote name team (some c) chadwick = ⟨none, some c, false⟩ := by
          unfold get_mlbam_id
          rw [hch]
          dsimp only
          rw [hcs]
          dsimp only
          rw [hp]
        rw [h1]
        dsimp only
        rw [h1]
        exact ⟨rfl, fun i hi => by simp at hi⟩
      · cases hrem : remote ((p0 :: p1 :: r).getLastD "") p0 with
        | error e =>
          have hstep : remoteStep remote ((p0 :: p1 :: r).getLastD "") p0 team (some c)
              (pyUpper name) = Except.error e := by
            unfold remoteStep
            rw [hrem]
            rfl
          have h1 : get_mlbam_id remote name team (some c) chadwick = ⟨none, some c, true⟩ := by
            unfold get_mlbam_id
            rw [hch]
            dsimp only
            rw [hcs]
            dsimp only
            rw [hp]
            dsimp only
            rw [hstep]
          rw [h1]
          dsimp only
          rw [h1]
          exact ⟨rfl, fun i hi => by simp at hi⟩
        | ok lookup =>
          cases lookup with
          | nil =>
            have hstep : remoteStep remote ((p0 :: p1 :: r).getLastD "") p0 team (some c)
                (pyUpper name) = Except.ok (none, some c) := by
              unfold remoteStep
              rw [hrem]
              rfl
            have h1 : get_mlbam_id remote name team (some c) chadwick =
                ⟨none, some c, true⟩ := by
              unfold get_mlbam_id
              rw [hch]
              dsimp only
              rw [hcs]
              dsimp only
              rw [hp]
              dsimp only
              rw [hstep]
            rw [h1]
            dsimp only
            rw [h1]
            exact ⟨rfl, fun i hi => by simp at hi⟩
          | cons r0 rs =>
            have hv : remoteStep remote ((p0 :: p1 :: r).getLastD "") p0 team (some c)
                (pyUpper name) = Except.ok (some (toString (remoteChoose (r0 :: rs) team)),
                  some (dictInsert c (pyUpper name)
                    (toString (remoteChoose (r0 :: rs) team)))) := by
              unfold remoteStep
              rw [hrem]
              rfl
            generalize hgv : toString (remoteChoose (r0 :: rs) team) = v at hv
            have h1 : get_mlbam_id remote name team (some c) chadwick =
                ⟨some v, some (dictInsert c (pyUpper name) v), true⟩ := by
              unfold get_mlbam_id
              rw [hch]
              dsimp only
              rw [hcs]
              dsimp only
              rw [hp]
              dsimp only
              rw [hv]
            have hc2 : cacheStep (some (dictInsert c (pyUpper name) v)) (pyUpper name) =
                some v := by
              simp [cacheStep, dictInsert, dictGet]
            have h2 := gmi_cache_hit remote name team (some (dictInsert c (pyUpper name) v))
              chadwick v hch hc2
            rw [h1]
            dsimp only
            rw [h2]
            exact ⟨rfl, fun i _ => rfl⟩

/-- Witness for C4 (amended): a registry hit (`"John Doe"` in Chadwick)
makes the first call succeed, and applying the theorem shows the second
call performs no remote lookup. -/
theorem c4_witness :
    (get_mlbam_id (fun _ _ => Except.error "down") "John Doe" ""
      ((get_mlbam_id (fun _ _ => Except.error "down") "John Doe" "" (some [])
        (some [("john doe", "77")])).cache)
      (some [("john doe", "77")])).remoteCalled = false := by
  exact (c4_idempotent (fun _ _ => Except.error "down") "John Doe" "" []
    (some [("john doe", "77")])).2 "77" rfl

/-- C5 counterexample: the cache already maps `"JOHN DOE"` to `"111"`, yet
resolution returns `"222"` — the Chadwick registry is consulted first and
overrides (and overwrites) the cached id, so a cached name does not always
resolve to its cached id. -/
theorem c5_cex :
    (get_mlbam_id (fun _ _ => Except.error "down") "John Doe" ""
      (some [("JOHN DOE", "111")]) (some [("john doe", "222")])).id = some "222" ∧
    (some "222" : Option String) ≠ some "111" := by
  exact ⟨rfl, by decide⟩

/-- C5 (amended): once a name maps to an id in the (nonempty) cache, a
resolution returns that cached id and leaves the cache unchanged — provided
the primary Chadwick registry does not resolve the name, since a registry
hit takes precedence and overwrites the entry.  No remote lookup happens. -/
theorem c5_cache_invariant (remote : RemoteLookup) (name team : String)
    (c : List (String × String)) (chadwick : Option (List (String × String))) (id : String)
    (hch : chadwickStep chadwick name = none)
    (hc : cacheStep (some c) (pyUpper name) = some id) :
    get_mlbam_id remote name team (some c) chadwick = ⟨some id, some c, false⟩ := by
  unfold get_mlbam_id
  rw [hch]
  dsimp only
  rw [hc]

/-- Witness for C5 (amended): with the registry missing the name, the
cached binding is returned unchanged. -/
theorem c5_witness :
    get_mlbam_id (fun _ _ => Except.error "down") "John Doe" ""
      (some [("JOHN DOE", "111")]) (some []) = ⟨some "111", some [("JOHN DOE", "111")], false⟩ := by
  exact c5_cache_invariant (fun _ _ => Except.error "down") "John Doe" ""
    [("JOHN DOE", "111")] (some []) "111" (by decide) (by decide)

/-! ## Claims C6 and C7: the card assembly driver -/

/-- The Chadwick step with an empty registry table always misses. -/
theorem chadwickStep_empty_table (nm : String) : chadwickStep (some []) nm = none := by
  unfold chadwickStep
  dsimp only
  rcases hp : pySplit (pyLower (pyStrip nm)) with _ | ⟨a, _ | ⟨b, r⟩⟩
  · rfl
  · rfl
  · rfl

/-- With an empty registry, an empty cache and a failing remote service,
resolution returns absent and keeps the empty cache. -/
theorem gmi_all_fail (nm team e : String) :
    ∃ b, get_mlbam_id (fun _ _ => Except.error e) nm team (some []) (some []) =
      ⟨none, some [], b⟩ := by
  unfold get_mlbam_id
  rw [chadwickStep_empty_table]
  rcases hp : pySplit (pyStrip nm) with _ | ⟨p0, _ | ⟨p1, r⟩⟩
  · exact ⟨false, rfl⟩
  · exact ⟨false, rfl⟩
  · exact ⟨true, rfl⟩

/-- C6: for every player record holding only a `Name` — absent from the
top-100 table, the internal rank table, the positions and grades tables,
the logo table, the identity cache and the registry, with the remote
identity service failing — `draw_player_card` still returns a complete
canvas of exactly `CARD_WIDTH × CARD_HEIGHT` with every panel drawn and
sentinels for the absent data: both info boxes (position rendered blank),
both double-height rank boxes with the `"NR"` rank sentinel, the neutral
gray placeholder box in the headshot rectangle, both bottom panels, blank
gray grade values, and the footer.  This holds for every font-metric
oracle and every bitmap fetcher. -/
theorem c6_complete_card (measure : Measure) (nm : String)
    (fetchHeadshot : String → Option (ℕ × ℕ)) (fetchLogo : String → ℤ → Bool)
    (brandLogo : Bool) :
    ∃ card, draw_player_card measure (fun _ _ => Except.error "unavailable") fetchHeadshot
        fetchLogo brandLogo [("Name", nm)] [] [] [] [] [] (some []) (some []) = some card ∧
      card.width = 900 ∧ card.height = 920 ∧
      draw_box (56, 106, 244, 162) COLOR_WHITE COLOR_BLACK 4 ∈ card.ops ∧
      draw_box (260, 106, 448, 162) COLOR_WHITE COLOR_BLACK 4 ∈ card.ops ∧
      draw_box (56, 172, 244, 294) COLOR_WHITE COLOR_BLACK 4 ∈ card.ops ∧
      draw_box (260, 172, 448, 294) COLOR_WHITE COLOR_BLACK 4 ∈ card.ops ∧
      (∃ p, Op.text p "NR" (load_font RANK_NUMBER_FONT_SIZE true false false) COLOR_BLACK
        ∈ card.ops) ∧
      draw_box (670, 106, 844, 294) COLOR_GRAY COLOR_BLACK PHOTO_BOX_BORDER ∈ card.ops ∧
      draw_box (56, 326, 448, 816) COLOR_WHITE COLOR_BLACK BOTTOM_BOX_BORDER ∈ card.ops ∧
      draw_box (480, 326, 872, 816) COLOR_WHITE COLOR_BLACK BOTTOM_BOX_BORDER ∈ card.ops ∧
      (∃ p, Op.text p "" (load_font INFO_BOX_FONT_SIZE true false false) COLOR_BLACK
        ∈ card.ops) ∧
      (∃ p, Op.text p "" (load_font 48 true false false) COLOR_GRAY ∈ card.ops) ∧
      (∃ p, Op.text p "prospects live" (load_font FOOTER_TEXT_SIZE false false true)
        COLOR_WHITE ∈ card.ops) := by
  obtain ⟨b, hb⟩ := gmi_all_fail nm "" "unavailable"
  have hname : dictGet [("Name", nm)] "Name" = some nm := rfl
  have hteam : pyUpper (pyStrip (dictGetD [("Name", nm)] "Team" "")) = "" := rfl
  unfold draw_player_card
  rw [hname]
  dsimp only
  rw [hteam]
  rw [show (dictGet ([] : List (String × String)) "" : Option String) = none from rfl]
  rw [hb]
  dsimp only
  refine ⟨_, rfl, rfl, rfl, ?_, ?_, ?_, ?_, ?_, ?_, ?_, ?_, ?_, ?_, ?_⟩
  · exact List.mem_append_left _ (List.mem_append_left _ (List.mem_append_left _
      (List.mem_append_left _ (List.mem_append_left _ (List.mem_append_left _
      (List.mem_append_left _ (List.mem_append_left _ (List.mem_append_left _
      (List.mem_append_right _ (List.Mem.head _))))))))))
  · exact List.mem_append_left _ (List.mem_append_left _ (List.mem_append_left _
      (List.mem_append_left _ (List.mem_append_left _ (List.mem_append_left _
      (List.mem_append_left _ (List.mem_append_left _ (List.mem_append_left _
      (List.mem_append_right _ (List.Mem.tail _ (List.Mem.tail _ (List.Mem.head _))))))))))))
  · exact List.mem_append_left _ (List.mem_append_left _ (List.mem_append_left _
      (List.mem_append_left _ (List.mem_append_left _ (List.mem_append_left _
      (List.mem_append_left _ (List.mem_append_left _ (List.mem_append_right _
      (List.mem_append_left _ (List.Mem.head _))))))))))
  · exact List.mem_append_left _ (List.mem_append_left _ (List.mem_append_left _
      (List.mem_append_left _ (List.mem_append_left _ (List.mem_append_left _
      (List.mem_append_left _ (List.mem_append_left _ (List.mem_append_right _
      (List.mem_append_right _ (List.Mem.head _))))))))))
  · exact ⟨_, List.mem_append_left _ (List.mem_append_left _ (List.mem_append_left _
      (List.mem_append_left _ (List.mem_append_left _ (List.mem_append_left _
      (List.mem_append_left _ (List.mem_append_left _ (List.mem_append_right _
      (List.mem_append_left _ (List.Mem.tail _ (List.Mem.tail _ (List.Mem.head _))))))))))))⟩
  · exact List.mem_append_left _ (List.mem_append_left _ (List.mem_append_left _
      (List.mem_append_left _ (List.mem_append_left _ (List.mem_append_left _
      (List.mem_append_right _ (List.Mem.head _)))))))
  · exact List.mem_append_left _ (List.mem_append_left _ (List.mem_append_left _
      (List.mem_append_left _ (List.mem_append_left _ (List.mem_append_right _
      (List.Mem.head _))))))
  · exact List.mem_append_left _ (List.mem_append_left _ (List.mem_append_left _
      (List.mem_append_right _ (List.Mem.head _))))
  · exact ⟨_, List.mem_append_left _ (List.mem_append_left _ (List.mem_append_left _
      (List.mem_append_left _ (List.mem_append_left _ (List.mem_append_left _
      (List.mem_append_left _ (List.mem_append_left _ (List.mem_append_left _
      (List.mem_append_right _ (List.Mem.tail _ (List.Mem.head _)))))))))))⟩
  · exact ⟨_, List.mem_append_left _ (List.mem_append_left _ (List.mem_append_right _
      (List.mem_flatMap_of_mem (show ((0, "OFP") : ℕ × String) ∈ SCOUT_GRADE_LABELS.enum
        from by decide) (List.Mem.tail _ (List.Mem.head _)))))⟩
  · exact ⟨_, List.mem_append_left _ (List.mem_append_right _ (List.Mem.head _))⟩

/-- C7 counterexample: the player's team `"NYY"` is in the logo table (url
`"u"`), but the logo fetch fails; the card still completes, yet NO
operation at all — in particular no placeholder rectangle — is drawn
inside the logo's destination region `(496, 106)–(670, 294)`: a failed
logo fetch is silently skipped, unlike a failed headshot fetch. -/
theorem c7_cex :
    ((draw_player_card (fun _ _ => (0, 0, 0, 0)) (fun _ _ => Except.error "down")
        (fun _ => none) (fun _ _ => false) false
        [("Name", "John Doe"), ("Team", "NYY")] [] [] [] [] [("NYY", "u")]
        (some []) (some [])).map (fun card => card.ops.filter opInLogoArea)) = some [] ∧
    dictGet [("NYY", "u")] (pyUpper (pyStrip (dictGetD
      [("Name", "John Doe"), ("Team", "NYY")] "Team" ""))) = some "u" := by
  exact ⟨rfl, rfl⟩

/-- C7 (amended): whenever fetching the player headshot fails, card
production still completes on the full canvas and a neutral gray
placeholder rectangle with the photo-box border is substituted in the
headshot's destination rectangle; a failed team-logo fetch, however, is
silently skipped — no operation is drawn inside the logo's destination
region (no placeholder is substituted there). -/
theorem c7_fetch_failure (measure : Measure) (remote : RemoteLookup)
    (fetchHeadshot : String → Option (ℕ × ℕ)) (fetchLogo : String → ℤ → Bool)
    (brandLogo : Bool) (player top100 ranks poss : List (String × String))
    (grades : List (String × List (String × String)))
    (logos : List (String × String))
    (cache chadwick : Option (List (String × String)))
    (pname i : String)
    (hname : dictGet player "Name" = some pname)
    (hid : (get_mlbam_id remote pname (pyUpper (pyStrip (dictGetD player "Team" "")))
      cache chadwick).id = some i)
    (hhs : fetchHeadshot (get_headshot_url i) = none)
    (hlf : ∀ u sz, fetchLogo u sz = false) :
    ∃ card, draw_player_card measure remote fetchHeadshot fetchLogo brandLogo player
        top100 ranks poss grades logos cache chadwick = some card ∧
      card.width = 900 ∧ card.height = 920 ∧
      draw_box (670, 106, 844, 294) COLOR_GRAY COLOR_BLACK PHOTO_BOX_BORDER ∈ card.ops ∧
      ∀ op ∈ card.ops, opInLogoArea op = false := by
  unfold draw_player_card
  rw [hname]
  dsimp only
  rw [hid]
  dsimp only
  rw [hhs]
  dsimp only
  simp only [hlf]
  refine ⟨_, rfl, rfl, rfl, ?_, ?_⟩
  · exact List.mem_append_left _ (List.mem_append_left _ (List.mem_append_left _
      (List.mem_append_left _ (List.mem_append_left _ (List.mem_append_left _
      (List.mem_append_right _ (List.Mem.head _)))))))
  · intro op hmem
    simp only [List.mem_append] at hmem
    rcases hmem with (((((((((h | h) | h) | h) | h) | h) | h) | h) | h) | h) | h
    · -- name text
      simp only [List.mem_cons, List.not_mem_nil, or_false] at h
      subst h
      rfl
    · -- info grid
      simp only [draw_box, draw_centered, List.mem_cons, List.not_mem_nil, or_false] at h
      rcases h with rfl | rfl | rfl | rfl <;> rfl
    · -- rank boxes
      simp only [draw_rank_box_vertical, draw_box, List.mem_append, List.mem_cons,
        List.not_mem_nil, or_false] at h
      rcases h with (rfl | rfl | rfl) | (rfl | rfl | rfl) <;> rfl
    · -- logo area: nothing is drawn there
      rcases hdg : dictGet logos (pyUpper (pyStrip (dictGetD player "Team" ""))) with _ | u
      · rw [hdg] at h
        simp at h
      · rw [hdg] at h
        simp at h
    · -- headshot placeholder
      simp only [draw_box, List.mem_cons, List.not_mem_nil, or_false] at h
      subst h
      decide
    · -- projections panel
      simp only [draw_box, draw_centered, List.mem_cons, List.not_mem_nil, or_false] at h
      rcases h with rfl | rfl | rfl <;> rfl
    · -- stat rows: text only
      rw [List.mem_flatMap] at h
      obtain ⟨a, _, h⟩ := h
      simp only [List.mem_cons, List.not_mem_nil, or_false] at h
      rcases h with rfl | rfl <;> rfl
    · -- grades panel header
      simp only [draw_box, draw_centered, List.mem_cons, List.not_mem_nil, or_false] at h
      rcases h with rfl | rfl | rfl <;> rfl
    · -- grade rows: text only
      rw [List.mem_flatMap] at h
      obtain ⟨a, _, h⟩ := h
      simp only [List.mem_cons, List.not_mem_nil, or_false] at h
      rcases h with rfl | rfl <;> rfl
    · -- footer text
      simp only [List.mem_cons, List.not_mem_nil, or_false] at h
      subst h
      rfl
    · -- brand logo paste, bottom-right corner
      cases brandLogo with
      | false => simp at h
      | true =>
        simp only [if_true, List.mem_cons, List.not_mem_nil, or_false] at h
        subst h
        decide

/-- Witness for C7 (amended) at a concrete cached identity whose headshot
fetch fails: the gray placeholder box appears in the headshot rectangle. -/
theorem c7_witness :
    ∃ card, draw_player_card (fun _ _ => (0, 0, 0, 0)) (fun _ _ => Except.error "down")
        (fun _ => none) (fun _ _ => false) true
        [("Name", "John Doe")] [] [] [] [] [] (some [("JOHN DOE", "55")]) (some []) =
        some card ∧
      draw_box (670, 106, 844, 294) COLOR_GRAY COLOR_BLACK PHOTO_BOX_BORDER ∈ card.ops := by
  obtain ⟨card, h1, _, _, h4, _⟩ := c7_fetch_failure (fun _ _ => (0, 0, 0, 0))
    (fun _ _ => Except.error "down") (fun _ => none) (fun _ _ => false) true
    [("Name", "John Doe")] [] [] [] [] [] (some [("JOHN DOE", "55")]) (some [])
    "John Doe" "55" rfl rfl rfl (fun _ _ => rfl)
  exact ⟨card, h1, h4⟩

end PliveCards
